import Mathlib

/-!
Shallow embedding of the cheetah workflow engine (codar/workflow) —
the `Run` and `Pipeline` supervisors from `codar/workflow/model.py` and
the `PipelineRunner` consumer from `codar/workflow/consumer.py` — together
with theorems checking the natural-language specification against it.

Machine conventions: Python `None` becomes `Option`, a Python property
that can raise `ValueError` becomes `Except String`, Python ints become
`Int` (return codes) or `Nat` (counts, node numbers), Python dicts become
association lists.
-/

set_option autoImplicit false

namespace Cheetah

/-! ## Run (codar/workflow/model.py, class Run)

Mutable state of one `Run` instance.  Fields mirror the attributes set in
`Run.__init__` (model.py lines 52-96); attributes irrelevant to the claims
(stdio paths, env, exe/args, threads, open files) are omitted.  `_p` models
`self._p`: `none` while no process has been spawned, `some rc` once
`subprocess.Popen` returned, where `rc : Option Int` is the process object's
`returncode` attribute (`none` until a `wait` observed the exit). -/

structure Run where
  name : String
  nprocs : Nat := 1
  timeout : Option Nat := none
  _end_time : Option Nat := none
  _killed : Bool := false
  _timeout_pending : Bool := false
  _timed_out : Bool := false
  _exception : Bool := false
  _p : Option (Option Int) := none
  nodes : Option Nat := none
  tasks_per_node : Option Nat := none
  deriving Repr, DecidableEq

/-- Property `Run.timed_out` (model.py lines 101-107): raises `ValueError`
while `_end_time` is unset, otherwise returns `_timed_out`. -/
def Run.timed_out (r : Run) : Except String Bool :=
  if r._end_time.isNone then
    .error "timed out state not available until run is done"
  else
    .ok r._timed_out

/-- Property `Run.killed` (model.py lines 109-116): raises `ValueError`
while `_end_time` is unset, otherwise returns `_killed`. -/
def Run.killed (r : Run) : Except String Bool :=
  if r._end_time.isNone then
    .error "killed state not available until run is done"
  else
    .ok r._killed

/-- Property `Run.exception` (model.py lines 118-123): readable at any
time, returns `_exception`. -/
def Run.exception (r : Run) : Bool :=
  r._exception

/-- Property `Run.succeeded` (model.py lines 125-134).  Note the order of
the checks in the source: `_exception` is tested before `_end_time`, so a
run with a recorded exception reports `False` even before termination; the
final conjunct `self._p.returncode == 0` is reached only when `_killed` and
`_timed_out` are both false (Python `and` short-circuits), and accessing
`returncode` on `_p = None` would raise `AttributeError`. -/
def Run.succeeded (r : Run) : Except String Bool :=
  if r._exception then
    .ok false
  else if r._end_time.isNone then
    .error "succeeded state not available until run is done"
  else if r._killed then
    .ok false
  else if r._timed_out then
    .ok false
  else
    match r._p with
    | none => .error "AttributeError: NoneType object has no returncode"
    | some rc => .ok (rc = some 0)

/-- Method `Run.get_returncode` (model.py lines 328-331): `None` when no
process was spawned, otherwise the process object's returncode. -/
def Run.get_returncode (r : Run) : Option Int :=
  r._p.bind id

/-- Method `Run.kill` (model.py lines 212-233), state transition only (the
signal-sending kill thread has no effect on the recorded state).  Under the
state lock: return unchanged if already killed, if a timeout kill is
pending, or if the run already finished; otherwise set `_killed`. -/
def Run.kill (r : Run) : Run :=
  if r._killed then r
  else if r._timeout_pending then r
  else if r._end_time.isSome then r
  else { r with _killed := true }

/-- The `subprocess.TimeoutExpired` handler inside `Run._run` (model.py
lines 184-196): set `_timeout_pending`; if `kill()` has not already fired,
kill the process group, re-wait, record the observed return code `rc`, set
`_timed_out` exactly when `rc` is non-zero, and clear `_timeout_pending`.
When `_killed` is already set, nothing further happens (in particular
`_timeout_pending` stays set). -/
def Run.handle_timeout (r : Run) (rc : Int) : Run :=
  let r1 : Run := { r with _timeout_pending := true }
  if !r1._killed then
    let r2 : Run := { r1 with _p := some (some rc) }
    let r3 : Run := if rc ≠ 0 then { r2 with _timed_out := true } else r2
    { r3 with _timeout_pending := false }
  else
    r1

/-- Observable events of `Run._run` in the order they are issued (model.py
lines 164-205): the write of the walltime file (`_save_walltime`), the
write of the return-code file (`_save_returncode`), and the firing of the
registered callbacks (`_run_callbacks`). -/
inductive RunEvent where
  | write_walltime
  | write_return
  | run_callbacks
  deriving Repr, DecidableEq

/-- Environment choices resolving the nondeterminism of one `Run._run`
execution: the wall-clock end time, whether `kill()` fires while the child
is being waited on, whether `wait` raises `TimeoutExpired`, and the child's
final return code. -/
structure RunEnv where
  end_time : Nat
  killed_during_wait : Bool
  times_out : Bool
  rc : Int
  deriving Repr, DecidableEq

/-- Method `Run._run` (model.py lines 164-205) as a state transformer that
also emits the trace of observable events.  Under the state lock, a run
already killed records its end time without spawning (`_p` stays `None`),
and the `self._p is None` check then fires the callbacks and returns —
without writing the walltime or return-code files.  Otherwise the child is
spawned, waited on (with the timeout handler when `wait` raises), the end
time recorded, and the walltime file, return-code file and callbacks are
issued in that order. -/
def Run.run_exec (r : Run) (env : RunEnv) : Run × List RunEvent :=
  if r._killed then
    ({ r with _end_time := some env.end_time }, [.run_callbacks])
  else
    let r1 : Run := { r with _p := some none }
    let r2 : Run :=
      if env.killed_during_wait then { r1 with _killed := true } else r1
    let r3 : Run :=
      if env.times_out then r2.handle_timeout env.rc
      else { r2 with _p := some (some env.rc) }
    let r4 : Run := { r3 with _end_time := some env.end_time }
    (r4, [.write_walltime, .write_return, .run_callbacks])

/-- Helper for stating the spec's "predicate reports true": an
`Except`-valued query reports true when it returns `Ok true` (a raised
`ValueError` reports nothing). -/
def reportsTrue (e : Except String Bool) : Bool :=
  match e with
  | .ok b => b
  | .error _ => false

/-- The four terminal predicates of the spec for a run, as the spec lists
them: `succeeded`, `timed_out`, `killed-and-not-timed_out`, `exception`. -/
def Run.terminalReports (r : Run) : List Bool :=
  [ reportsTrue r.succeeded,
    reportsTrue r.timed_out,
    reportsTrue r.killed && !(reportsTrue r.timed_out),
    r.exception ]

/-- Number of the four terminal predicates reporting true. -/
def Run.terminalReportCount (r : Run) : Nat :=
  (r.terminalReports.filter (fun b => b)).length

/-- A run that started normally, was never killed, never timed out,
recorded no exception, and exited with return code 1 — the straight-line
path of `Run._run` with a failing child. -/
def failedRun : Run :=
  { name := "a", _end_time := some 10, _p := some (some 1) }

/-- A run whose supervision raised a Python exception before any end time
was recorded (for example `Popen` failed), as produced by the handler in
`Run.run` (model.py lines 145-162). -/
def excPendingRun : Run :=
  { name := "e", _exception := true }

/-! ## Status constants (codar/workflow/status.py)

Modelled from the spec: the `status` module is not under src/ (only its
callers are).  Per spec §3, `PipelineState` is
`(id, phase ∈ {NOT_STARTED, RUNNING, DONE, KILLED},
reason ∈ {SUCCEEDED, FAILED, TIMEOUT, EXCEPTION, NOFIT}?,
per-run return codes?)`. -/

inductive Phase where
  | NOT_STARTED
  | RUNNING
  | DONE
  | KILLED
  deriving Repr, DecidableEq

inductive Reason where
  | SUCCEEDED
  | FAILED
  | TIMEOUT
  | EXCEPTION
  | NOFIT
  deriving Repr, DecidableEq

structure PipelineState where
  id : String
  state : Phase
  reason : Option Reason := none
  return_codes : Option (List (String × Option Int)) := none
  deriving Repr, DecidableEq

/-- Modelled from the spec: `WorkflowStatus.set_state` of the missing
`status` module.  Per spec §6 the status store is a JSON object
`{pipeline_id: PipelineState}` rewritten on every state change, so
`set_state` is a keyed map update. -/
def set_state (store : List (String × PipelineState)) (st : PipelineState) :
    List (String × PipelineState) :=
  (st.id, st) :: store.filter (fun kv => kv.1 ≠ st.id)

/-! ## NodeLayout (codar/cheetah/model.py, not under src/)

Modelled from the spec: `NodeLayout` is missing from src/.  Per spec §3 a
layout is a "list of per-node maps `{runName: tasksOnThisNode}`", §4.2
provides `get_node_containing_code(name) → {name: tasks}`, and the
"default layout when none is given assigns each run its own disjoint set
of nodes at full per-node occupancy". -/

def Layout : Type := List (List (String × Nat))

/-- Modelled from the spec: `NodeLayout.default_no_share_layout(ppn,
run_names)` — each run on its own node with `ppn` tasks. -/
def default_no_share_layout (ppn : Nat) (names : List String) : Layout :=
  names.map (fun n => [(n, ppn)])

/-- Modelled from the spec: `NodeLayout.get_node_containing_code(name)` —
the per-node map of the node hosting `name`. -/
def get_node_containing_code (layout : Layout) (name : String) :
    Option (List (String × Nat)) :=
  layout.find? (fun node => node.any (fun kv => kv.1 = name))

/-- Tasks entry of a layout for a given run name (the value
`run_node[run.name]` read by `Pipeline.set_ppn`). -/
def layoutTasks (layout : Layout) (name : String) : Option Nat :=
  (get_node_containing_code layout name).bind
    (fun node => (node.find? (fun kv => kv.1 = name)).map (fun kv => kv.2))

/-- Ceiling division, the value of `int(math.ceil(nprocs /
tasks_per_node))` for positive integer arguments. -/
def ceilDiv (a b : Nat) : Nat :=
  (a + b - 1) / b

/-! ## Pipeline (codar/workflow/model.py, class Pipeline) -/

structure Pipeline where
  id : String
  runs : List Run
  kill_on_partial_failure : Bool := false
  node_layout : Option Layout := none
  _running : Bool := false
  _force_killed : Bool := false
  _active_runs : List String := []
  total_nodes : Option Nat := none

/-- Body of the per-run loop of `Pipeline.set_ppn` (model.py lines
558-568): look up the node hosting the run (asserting it is not shared),
clamp `tasks_per_node` to `nprocs`, and derive `nodes` by ceiling
division.  A zero `tasks_per_node` would raise `ZeroDivisionError` in the
Python division. -/
def setRunPpn (layout : Layout) (r : Run) : Except String Run :=
  match get_node_containing_code layout r.name with
  | none => .error ("no node contains code " ++ r.name)
  | some node =>
    if node.length ≠ 1 then
      .error "AssertionError: len(run_node) == 1"
    else
      match (node.find? (fun kv => kv.1 = r.name)).map (fun kv => kv.2) with
      | none => .error ("KeyError: " ++ r.name)
      | some tasks =>
        if (if tasks > r.nprocs then r.nprocs else tasks) = 0 then
          .error "ZeroDivisionError"
        else
          .ok { r with
                tasks_per_node :=
                  some (if tasks > r.nprocs then r.nprocs else tasks),
                nodes :=
                  some (ceilDiv r.nprocs
                    (if tasks > r.nprocs then r.nprocs else tasks)) }

/-- Effective layout chosen by `Pipeline.set_ppn` (model.py lines
551-555): the explicit `node_layout` when given, otherwise the default
no-share layout over the pipeline's run names. -/
def Pipeline.effectiveLayout (p : Pipeline) (ppn : Nat) : Layout :=
  match p.node_layout with
  | none => default_no_share_layout ppn (p.runs.map (fun r => r.name))
  | some l => l

/-- Error-propagating map over the runs, the meaning of the Python `for`
loop of `set_ppn`: the first raised error aborts the whole call. -/
def mapE (f : Run → Except String Run) : List Run → Except String (List Run)
  | [] => .ok []
  | x :: xs => do
    let y ← f x
    let ys ← mapE f xs
    .ok (y :: ys)

/-- Method `Pipeline.set_ppn` (model.py lines 547-568): update every run
with its `tasks_per_node` and `nodes`, and set `total_nodes` to the sum of
the runs' node counts. -/
def Pipeline.set_ppn (p : Pipeline) (ppn : Nat) : Except String Pipeline := do
  let runs' ← mapE (setRunPpn (p.effectiveLayout ppn)) p.runs
  .ok { p with runs := runs',
               total_nodes := some ((runs'.map (fun r => r.nodes.getD 0)).sum) }

/-- Method `Pipeline.get_nodes_used` (model.py lines 542-545): raises
`ValueError` until `set_ppn` has been called. -/
def Pipeline.get_nodes_used (p : Pipeline) : Except String Nat :=
  match p.total_nodes with
  | none => .error "set_ppn must be called before getting node usage"
  | some n => .ok n

/-- Short-circuiting `any` over an `Except`-valued predicate, the meaning
of Python's `any(r.timed_out for r in self.runs)` where reading
`timed_out` can raise. -/
def anyE (f : Run → Except String Bool) : List Run → Except String Bool
  | [] => .ok false
  | r :: rs => do
    let b ← f r
    if b then .ok true else anyE f rs

/-- Method `Pipeline.get_state` (model.py lines 570-593): `NOT_STARTED`
when not running, else `KILLED` when force-killed, else `RUNNING` while
any run is active; otherwise `DONE` with the return-code map and a reason
aggregated with priority EXCEPTION > TIMEOUT > FAILED > SUCCEEDED.
Python's `elif any(r.timed_out ...)` is evaluated only when no run has an
exception, and short-circuits, hence `anyE`. -/
def Pipeline.get_state (p : Pipeline) : Except String PipelineState :=
  if !p._running then
    .ok { id := p.id, state := .NOT_STARTED }
  else if p._force_killed then
    .ok { id := p.id, state := .KILLED }
  else if !p._active_runs.isEmpty then
    .ok { id := p.id, state := .RUNNING }
  else
    let rcs := p.runs.map (fun r => (r.name, r.get_returncode))
    if p.runs.any (fun r => r.exception) then
      .ok { id := p.id, state := .DONE, reason := some .EXCEPTION,
            return_codes := some rcs }
    else do
      let t ← anyE Run.timed_out p.runs
      if t then
        .ok { id := p.id, state := .DONE, reason := some .TIMEOUT,
              return_codes := some rcs }
      else if p.runs.any (fun r => r.get_returncode ≠ some 0) then
        .ok { id := p.id, state := .DONE, reason := some .FAILED,
              return_codes := some rcs }
      else
        .ok { id := p.id, state := .DONE, reason := some .SUCCEEDED,
              return_codes := some rcs }

/-- Specification-style aggregate reason over the raw run flags: EXCEPTION
if any run raised, else TIMEOUT if any timed out, else FAILED if any
non-zero (or missing) return code, else SUCCEEDED. -/
def aggregateReason (runs : List Run) : Reason :=
  if runs.any (fun r => r._exception) then .EXCEPTION
  else if runs.any (fun r => r._timed_out) then .TIMEOUT
  else if runs.any (fun r => r.get_returncode ≠ some 0) then .FAILED
  else .SUCCEEDED

/-! ## PipelineRunner (codar/workflow/consumer.py) -/

/-- State of a `PipelineRunner` (consumer.py lines 30-55): node budget and
per-node process count, the admission flags, the set of admitted pipeline
ids, the free-node counter, the pending job list, and the optional status
store (`none` when no status file was configured). -/
structure ConsumerState where
  max_nodes : Nat
  ppn : Nat
  _allow_new_pipelines : Bool := true
  _process_pipelines : Bool := true
  _killed : Bool := false
  _pipeline_ids : List String := []
  free_nodes : Nat
  job_list : List Pipeline := []
  statusStore : Option (List (String × PipelineState)) := none

/-- Method `PipelineRunner.add_pipeline` (consumer.py lines 57-80) as a
state transformer paired with its outcome (`Except.error` models a raised
`ValueError`; the state component records the mutations performed before
the method returned or raised).  Order matters and follows the source: the
disallowed and duplicate checks precede any mutation, the id is added to
`_pipeline_ids` before `set_ppn` runs, and the no-fit branch records a
`{NOT_STARTED, NOFIT}` state (when a status store exists) and discards the
pipeline, leaving `free_nodes` and `job_list` untouched. -/
def add_pipeline (c : ConsumerState) (p : Pipeline) :
    ConsumerState × Except String Unit :=
  if !c._allow_new_pipelines then
    (c, .error "new pipelines are not allowed after stop or kill")
  else if p.id ∈ c._pipeline_ids then
    (c, .error ("duplicate pipeline id: " ++ p.id))
  else
    let c1 : ConsumerState := { c with _pipeline_ids := p.id :: c._pipeline_ids }
    match p.set_ppn c.ppn with
    | .error e => (c1, .error e)
    | .ok p' =>
      match p'.get_nodes_used with
      | .error e => (c1, .error e)
      | .ok n =>
        if n > c.max_nodes then
          match c1.statusStore, p'.get_state with
          | none, _ => (c1, .ok ())
          | some _, .error e => (c1, .error e)
          | some store, .ok st =>
            let st' : PipelineState := { st with reason := some Reason.NOFIT }
            ({ c1 with statusStore := some (set_state store st') }, .ok ())
        else
          match c1.statusStore, p'.get_state with
          | none, _ =>
            ({ c1 with job_list := c1.job_list ++ [p'] }, .ok ())
          | some _, .error e => (c1, .error e)
          | some store, .ok st =>
            ({ c1 with statusStore := some (set_state store st),
                       job_list := c1.job_list ++ [p'] },
             .ok ())

/-- Method `PipelineRunner.stop` (consumer.py lines 82-89): disallow new
pipelines (the condition-variable notify has no state effect). -/
def ConsumerState.stop (c : ConsumerState) : ConsumerState :=
  { c with _allow_new_pipelines := false }

/-- Method `PipelineRunner.kill_all` (consumer.py lines 91-114), state
effect on the consumer itself: set `_killed`, disallow new pipelines and
stop processing (the force-kill cascade acts on the pipelines). -/
def ConsumerState.kill_all (c : ConsumerState) : ConsumerState :=
  { c with _killed := true,
           _allow_new_pipelines := false,
           _process_pipelines := false }

/-- A sequence of `add_pipeline` calls, returning the final state and the
outcome of each call in order. -/
def addSeq (c : ConsumerState) : List Pipeline →
    ConsumerState × List (Except String Unit)
  | [] => (c, [])
  | p :: ps =>
    let (c', e) := add_pipeline c p
    let (c'', es) := addSeq c' ps
    (c'', e :: es)

/-! ## ADIOS file-size scan (consumer.py, `_get_adios_file_sizes`)

A directory tree: the contents of the pipeline working directory. -/

inductive FSEntry where
  | file (name : String) (size : Nat)
  | dir (name : String) (children : List FSEntry)

def FSEntry.name : FSEntry → String
  | .file n _ => n
  | .dir n _ => n

/-- Modelled from the spec: `get_file_size` of `codar.cheetah.helpers` is
not under src/.  Per spec §6 the output maps each matched entry (a file or
a directory) to its byte size, so a directory's size is the total size of
its contents. -/
def entrySize : FSEntry → Nat
  | .file _ s => s
  | .dir _ cs => entriesSize cs
where entriesSize : List FSEntry → Nat
  | [] => 0
  | e :: es => entrySize e + entriesSize es

/-- Python's `str.endswith`, computed on the character lists so that
concrete instances evaluate. -/
def strEndsWith (s t : String) : Bool :=
  t.data.isSuffixOf s.data

/-- Name filter of `_adios_file_sizes_recursive` (consumer.py line 202). -/
def isAdiosName (s : String) : Bool :=
  strEndsWith s ".bp" || strEndsWith s ".bp.dir"

/-- Function `_adios_file_sizes_recursive` (consumer.py lines 199-208) on
the entries of one directory.  A matched entry is recorded under its name
(for a direct child, `entry.path.split(path+"/", 1).pop()` is the entry
name); an unmatched directory is recursed into, but the dict returned by
the recursive call is never merged into `fname_size` (line 207), so those
results are discarded — reproduced faithfully here by the unused `let`. -/
def adiosSizesCode : List FSEntry → List (String × Nat)
  | [] => []
  | .file n s :: es =>
    if isAdiosName n then (n, s) :: adiosSizesCode es
    else adiosSizesCode es
  | .dir n cs :: es =>
    if isAdiosName n then (n, entrySize (.dir n cs)) :: adiosSizesCode es
    else
      let _discarded := adiosSizesCode cs
      adiosSizesCode es

/-- Modelled from the spec: the intended semantics of the ADIOS size scan
per spec §6 and §9 — "walk all descendants and accumulate into one flat
map keyed by relative path", covering every file ending in `.bp` and
directory ending in `.bp.dir` at any depth.  `pre` is the relative-path
prefix of the directory being walked. -/
def adiosSizesSpec (pre : String) : List FSEntry → List (String × Nat)
  | [] => []
  | .file n s :: es =>
    if isAdiosName n then (pre ++ n, s) :: adiosSizesSpec pre es
    else adiosSizesSpec pre es
  | .dir n cs :: es =>
    if isAdiosName n then (pre ++ n, entrySize (.dir n cs)) :: adiosSizesSpec pre es
    else adiosSizesSpec (pre ++ n ++ "/") cs ++ adiosSizesSpec pre es

/-- A pipeline working directory holding one plain subdirectory `sub`
that contains one ADIOS file `x.bp` of 5 bytes. -/
def nestedBpTree : List FSEntry :=
  [.dir "sub" [.file "x.bp" 5]]

/-- A run on which `kill()` fired before `_run` reached the spawn (its
`_killed` flag is set and no process exists). -/
def preKilledRun : Run :=
  { name := "p7", _killed := true }

/-- A concrete run environment: the child exits cleanly with code 0 and no
timeout, at wall-clock time 42. -/
def envClean : RunEnv :=
  { end_time := 42, killed_during_wait := false, times_out := false, rc := 0 }

/-- A pipeline that has run to completion: started, not force-killed, no
active runs left, its single run terminated with return code 1. -/
def donePipeline : Pipeline :=
  { id := "p3", runs := [failedRun], _running := true }

/-- A fresh two-run pipeline before layout resolution: runs `x` (4
processes) and `y` (2 processes), no explicit node layout. -/
def freshPipeline : Pipeline :=
  { id := "p5",
    runs := [{ name := "x", nprocs := 4 }, { name := "y", nprocs := 2 }] }

/-- The result of resolving `freshPipeline` with `ppn = 2`: run `x` gets
2 tasks per node on 2 nodes, run `y` gets 2 tasks per node on 1 node,
3 nodes in total. -/
def resolvedPipeline : Pipeline :=
  { id := "p5",
    runs := [{ name := "x", nprocs := 4, tasks_per_node := some 2, nodes := some 2 },
             { name := "y", nprocs := 2, tasks_per_node := some 2, nodes := some 1 }],
    total_nodes := some 3 }

/-- A fresh consumer with a budget of one node, one process per node, and
a status store configured. -/
def smallConsumer : ConsumerState :=
  { max_nodes := 1, ppn := 1, free_nodes := 1, statusStore := some [] }

/-- A pipeline needing three nodes — over `smallConsumer`'s budget. -/
def bigPipeline : Pipeline :=
  { id := "big", runs := [{ name := "b", nprocs := 3 }] }

/-- A second pipeline reusing the id of `bigPipeline`. -/
def bigPipelineTwin : Pipeline :=
  { id := "big", runs := [{ name := "b2", nprocs := 1 }] }

/-- The result of resolving `bigPipeline` with `ppn = 1`: its run needs 3
nodes, so the pipeline needs 3 nodes in total. -/
def bigResolved : Pipeline :=
  { id := "big",
    runs := [{ name := "b", nprocs := 3, tasks_per_node := some 1,
               nodes := some 3 }],
    total_nodes := some 3 }

/-! ## Theorems -/

/-- C1 counterexample: `failedRun` has terminated (its end time is set),
yet NONE of the four predicates {succeeded, timed_out,
killed-and-not-timed_out, exception} reports true — the run merely exited
with a non-zero return code — so "exactly one reports true" is false. -/
theorem run_exactly_one_cex :
    failedRun._end_time.isSome = true ∧ ¬(failedRun.terminalReportCount = 1) := by
  decide

/-- C1 (amended): for every terminated run, AT MOST one of {succeeded,
timed_out, killed-and-not-timed_out} reports true, and a recorded
exception forces `succeeded` to report false; a run that started normally,
was never killed, never timed out and exited non-zero reports none of the
four (witness `run_exactly_one_cex`). -/
theorem run_terminal_at_most_one (r : Run) (h : r._end_time.isSome = true) :
    (¬(reportsTrue r.succeeded = true ∧ reportsTrue r.timed_out = true))
  ∧ (¬(reportsTrue r.succeeded = true ∧
        (reportsTrue r.killed && !(reportsTrue r.timed_out)) = true))
  ∧ (¬(reportsTrue r.timed_out = true ∧
        (reportsTrue r.killed && !(reportsTrue r.timed_out)) = true))
  ∧ (r._exception = true → r.succeeded = .ok false) := by
  obtain ⟨t, ht⟩ := Option.isSome_iff_exists.mp h
  cases hexc : r._exception <;> cases hk : r._killed <;>
    cases hto : r._timed_out <;>
    simp_all [Run.succeeded, Run.timed_out, Run.killed, reportsTrue]

/-- Witness for `run_terminal_at_most_one` at the concrete terminated run
`failedRun`. -/
theorem run_terminal_at_most_one_witness :
    (¬(reportsTrue failedRun.succeeded = true ∧
        reportsTrue failedRun.timed_out = true))
  ∧ (¬(reportsTrue failedRun.succeeded = true ∧
        (reportsTrue failedRun.killed && !(reportsTrue failedRun.timed_out)) = true))
  ∧ (¬(reportsTrue failedRun.timed_out = true ∧
        (reportsTrue failedRun.killed && !(reportsTrue failedRun.timed_out)) = true))
  ∧ (failedRun._exception = true → failedRun.succeeded = .ok false) :=
  run_terminal_at_most_one failedRun (by decide)

/-- C4: inside the timeout handler, when no kill was already in flight and
the run has not been flagged, `_timed_out` is set if and only if the
return code observed after the re-wait is non-zero; and for every run and
every prior kill state, a zero return code never flags `_timed_out`. -/
theorem run_timeout_flag_iff (r : Run) (rc : Int)
    (hk : r._killed = false) (ht : r._timed_out = false) :
    ((r.handle_timeout rc)._timed_out = true ↔ rc ≠ 0)
  ∧ (∀ (r2 : Run) (rc2 : Int), r2._timed_out = false → rc2 = 0 →
      (r2.handle_timeout rc2)._timed_out = false) := by
  constructor
  · by_cases hrc : rc = 0 <;> simp [Run.handle_timeout, hk, ht, hrc]
  · intro r2 rc2 h2 hrc2
    cases hk2 : r2._killed <;> simp [Run.handle_timeout, hrc2, hk2, h2]

/-- Witness for `run_timeout_flag_iff` at a fresh run and return code 1. -/
theorem run_timeout_flag_iff_witness :
    ((({ name := "w4" } : Run).handle_timeout 1)._timed_out = true ↔ (1 : Int) ≠ 0)
  ∧ (∀ (r2 : Run) (rc2 : Int), r2._timed_out = false → rc2 = 0 →
      (r2.handle_timeout rc2)._timed_out = false) :=
  run_timeout_flag_iff { name := "w4" } 1 rfl rfl

/-- Applying `kill` twice yields the same state as applying it once: the
first effective call sets `_killed`, on which the second short-circuits. -/
theorem kill_kill (r : Run) : r.kill.kill = r.kill := by
  cases hk : r._killed <;> cases hp : r._timeout_pending <;>
    cases he : r._end_time <;> simp [Run.kill, hk, hp, he]

/-- Iterating `kill` on top of one `kill` changes nothing further. -/
theorem kill_iterate_fixed (r : Run) (m : Nat) :
    Run.kill^[m] r.kill = r.kill := by
  induction m with
  | zero => rfl
  | succ m ih => rw [Function.iterate_succ_apply, kill_kill, ih]

/-- C6: `kill()` is idempotent — `N ≥ 1` invocations produce the same run
state as one — and it short-circuits without effect when the run is
already killed, when a timeout kill is pending, or when the run has
terminated; otherwise its only effect is to set `_killed`. -/
theorem run_kill_idempotent (r : Run) (n : Nat) (h : 1 ≤ n) :
    Run.kill^[n] r = r.kill
  ∧ (r._killed = true → r.kill = r)
  ∧ (r._timeout_pending = true → r.kill = r)
  ∧ (r._end_time.isSome = true → r.kill = r)
  ∧ (r._killed = false → r._timeout_pending = false → r._end_time = none →
      r.kill = { r with _killed := true }) := by
  obtain ⟨m, rfl⟩ : ∃ m, n = m + 1 :=
    ⟨n - 1, (Nat.succ_pred_eq_of_pos h).symm⟩
  refine ⟨?_, ?_, ?_, ?_, ?_⟩
  · rw [Function.iterate_succ_apply, kill_iterate_fixed]
  · intro hk; simp [Run.kill, hk]
  · intro hp; simp [Run.kill, hp]
  · intro he; simp [Run.kill, he]
  · intro hk hp he; simp [Run.kill, hk, hp, he]

/-- Witness for `run_kill_idempotent`: three kills of a fresh run equal
one kill. -/
theorem run_kill_idempotent_witness :
    Run.kill^[3] ({ name := "w6" } : Run) = ({ name := "w6" } : Run).kill
  ∧ (({ name := "w6" } : Run)._killed = true →
      ({ name := "w6" } : Run).kill = { name := "w6" })
  ∧ (({ name := "w6" } : Run)._timeout_pending = true →
      ({ name := "w6" } : Run).kill = { name := "w6" })
  ∧ (({ name := "w6" } : Run)._end_time.isSome = true →
      ({ name := "w6" } : Run).kill = { name := "w6" })
  ∧ (({ name := "w6" } : Run)._killed = false →
      ({ name := "w6" } : Run)._timeout_pending = false →
      ({ name := "w6" } : Run)._end_time = none →
      ({ name := "w6" } : Run).kill = { ({ name := "w6" } : Run) with _killed := true }) :=
  run_kill_idempotent { name := "w6" } 3 (by decide)

/-- C9 counterexample: a run with a recorded exception and no end time —
querying `succeeded` before termination returns the value `false` instead
of failing with "not available until run is done". -/
theorem run_succeeded_exception_cex :
    excPendingRun._end_time = none ∧ excPendingRun.succeeded = .ok false :=
  ⟨rfl, rfl⟩

/-- C9 (amended): before termination `timed_out` and `killed` fail with
"not available until run is done"; `succeeded` fails likewise UNLESS an
exception has been recorded, in which case it returns false; `exception`
is always readable; and the return-code query returns null while the run
is unstarted. -/
theorem run_queries_before_done (r : Run) (h : r._end_time = none) :
    r.timed_out = .error "timed out state not available until run is done"
  ∧ r.killed = .error "killed state not available until run is done"
  ∧ (r._exception = false →
      r.succeeded = .error "succeeded state not available until run is done")
  ∧ (r._exception = true → r.succeeded = .ok false)
  ∧ (r._p = none → r.get_returncode = none) := by
  refine ⟨?_, ?_, ?_, ?_, ?_⟩
  · simp [Run.timed_out, h]
  · simp [Run.killed, h]
  · intro he; simp [Run.succeeded, he, h]
  · intro he; simp [Run.succeeded, he]
  · intro hp; simp [Run.get_returncode, hp]

/-- C7 counterexample: a run killed before its process was spawned does
terminate (its end time is set), yet `_run` fires the callbacks without
writing either the walltime file or the return-code file. -/
theorem run_persistence_cex :
    ((preKilledRun.run_exec envClean).1._end_time.isSome = true)
  ∧ (preKilledRun.run_exec envClean).2 = [.run_callbacks]
  ∧ RunEvent.write_walltime ∉ (preKilledRun.run_exec envClean).2
  ∧ RunEvent.write_return ∉ (preKilledRun.run_exec envClean).2 := by
  decide

/-- C7 (amended): for every run whose process is actually spawned (no kill
arrived before the start), `_run` writes the walltime file, then the
return-code file, and only then fires the callbacks — both writes precede
every callback.  A run killed before spawn instead fires callbacks with no
writes (witness `run_persistence_cex`). -/
theorem run_writes_before_callbacks (r : Run) (env : RunEnv)
    (h : r._killed = false) :
    (r.run_exec env).2 = [.write_walltime, .write_return, .run_callbacks] := by
  simp [Run.run_exec, h]

/-- Witness for `run_writes_before_callbacks` at a fresh run in the clean
environment. -/
theorem run_writes_before_callbacks_witness :
    (({ name := "w7" } : Run).run_exec envClean).2 =
      [.write_walltime, .write_return, .run_callbacks] :=
  run_writes_before_callbacks { name := "w7" } envClean rfl

/-- C8: evaluating the source's size scan on a working directory whose
only ADIOS entry sits one level down yields the empty map — the recursive
call's result is discarded (consumer.py line 207) — while the intended
semantics mandated by the spec accumulates it into the flat map under its
relative path. -/
theorem adios_nested_sizes_lost :
    adiosSizesCode nestedBpTree = []
  ∧ adiosSizesSpec "" nestedBpTree = [("sub/x.bp", 5)] := by
  have h1 : isAdiosName "sub" = false := by decide
  have h2 : isAdiosName "x.bp" = true := by decide
  constructor
  · simp [adiosSizesCode, nestedBpTree, h1, h2]
  · simp [adiosSizesSpec, nestedBpTree, h1, h2]

/-- Witness for `run_queries_before_done` at a fresh unstarted run. -/
theorem run_queries_before_done_witness :
    ({ name := "w9" } : Run).timed_out
      = .error "timed out state not available until run is done"
  ∧ ({ name := "w9" } : Run).killed
      = .error "killed state not available until run is done"
  ∧ (({ name := "w9" } : Run)._exception = false →
      ({ name := "w9" } : Run).succeeded
        = .error "succeeded state not available until run is done")
  ∧ (({ name := "w9" } : Run)._exception = true →
      ({ name := "w9" } : Run).succeeded = .ok false)
  ∧ (({ name := "w9" } : Run)._p = none →
      ({ name := "w9" } : Run).get_returncode = none) :=
  run_queries_before_done { name := "w9" } rfl

/-- When every run has terminated, the short-circuiting `any` over the
raising `timed_out` property reduces to the plain `any` over the raw
flag. -/
theorem anyE_timed_out_done (runs : List Run)
    (hdone : ∀ r ∈ runs, r._end_time.isSome = true) :
    anyE Run.timed_out runs = .ok (runs.any (fun r => r._timed_out)) := by
  induction runs with
  | nil => rfl
  | cons r rs ih =>
    obtain ⟨t, ht⟩ := Option.isSome_iff_exists.mp (hdone r (by simp))
    have ihr := ih (fun x hx => hdone x (by simp [hx]))
    cases hto : r._timed_out <;>
      simp [anyE, Run.timed_out, ht, hto, ihr, Bind.bind, Except.bind]

/-- C3: `get_state` returns `NOT_STARTED` while not running, `KILLED` when
force-killed, `RUNNING` while a run is active, and otherwise `DONE` with
the run-name → return-code map and the reason aggregated with priority
EXCEPTION > TIMEOUT > FAILED > SUCCEEDED (stated through
`aggregateReason`; the terminated-runs hypothesis reflects that a done
pipeline's runs have all ended). -/
theorem pipeline_get_state_spec (p : Pipeline) :
    (p._running = false → p.get_state = .ok { id := p.id, state := .NOT_STARTED })
  ∧ (p._running = true → p._force_killed = true →
      p.get_state = .ok { id := p.id, state := .KILLED })
  ∧ (p._running = true → p._force_killed = false → p._active_runs ≠ [] →
      p.get_state = .ok { id := p.id, state := .RUNNING })
  ∧ (p._running = true → p._force_killed = false → p._active_runs = [] →
      (∀ r ∈ p.runs, r._end_time.isSome = true) →
      p.get_state = .ok { id := p.id, state := .DONE,
                          reason := some (aggregateReason p.runs),
                          return_codes := some (p.runs.map
                            (fun r => (r.name, r.get_returncode))) }) := by
  refine ⟨?_, ?_, ?_, ?_⟩
  · intro hr; simp [Pipeline.get_state, hr]
  · intro hr hf; simp [Pipeline.get_state, hr, hf]
  · intro hr hf ha
    simp [Pipeline.get_state, hr, hf, List.isEmpty_iff, ha]
  · intro hr hf ha hdone
    simp only [Pipeline.get_state, hr, hf, ha, Bool.not_true, Bool.false_eq_true,
      if_false, List.isEmpty_nil, Bool.not_false, if_true]
    by_cases hexc : p.runs.any (fun r => r.exception) = true
    · have hexc2 : p.runs.any (fun r => r._exception) = true := by
        simpa [Run.exception] using hexc
      simp [hexc, aggregateReason, hexc2]
    · have hexc' : p.runs.any (fun r => r._exception) = false := by
        simpa [Run.exception] using hexc
      rw [anyE_timed_out_done p.runs hdone]
      by_cases hto : p.runs.any (fun r => r._timed_out) = true
      · simp [hexc, hto, aggregateReason, hexc', Bind.bind, Except.bind]
      · simp [hexc, hto, aggregateReason, hexc', Bind.bind, Except.bind]
        by_cases hrc : ∃ x ∈ p.runs, ¬x.get_returncode = some 0 <;> simp [hrc]

/-- Witness for `pipeline_get_state_spec`: the done branch evaluated on
`donePipeline`, whose one run failed with return code 1, aggregates to
reason FAILED. -/
theorem pipeline_get_state_spec_witness :
    donePipeline.get_state = .ok { id := donePipeline.id, state := .DONE,
                                   reason := some (aggregateReason donePipeline.runs),
                                   return_codes := some (donePipeline.runs.map
                                     (fun r => (r.name, r.get_returncode))) } :=
  (pipeline_get_state_spec donePipeline).2.2.2 rfl rfl rfl (by decide)

/-- Characterisation of one successful `setRunPpn` step: the layout hosts
the run with some `tasks` entry, `tasks_per_node` is clamped to
`min tasks nprocs`, `nodes` is the ceiling quotient, and a run whose
`nprocs` equals its `tasks_per_node` gets exactly one node. -/
theorem setRunPpn_ok (L : Layout) (r r' : Run) (h : setRunPpn L r = .ok r') :
    ∃ tasks : Nat, layoutTasks L r.name = some tasks
  ∧ r'.name = r.name ∧ r'.nprocs = r.nprocs
  ∧ r'.tasks_per_node = some (min tasks r.nprocs)
  ∧ r'.nodes = some (ceilDiv r.nprocs (min tasks r.nprocs))
  ∧ (r.nprocs = min tasks r.nprocs → r'.nodes = some 1) := by
  unfold setRunPpn at h
  cases hn : get_node_containing_code L r.name with
  | none => rw [hn] at h; exact absurd h (by simp)
  | some node =>
    simp only [hn] at h
    by_cases hlen : node.length ≠ 1
    · rw [if_pos hlen] at h; exact absurd h (by simp)
    · rw [if_neg hlen] at h
      cases hfind : (node.find? (fun kv => kv.1 = r.name)).map (fun kv => kv.2) with
      | none => simp only [hfind] at h; exact absurd h (by simp)
      | some tasks =>
        simp only [hfind] at h
        have hmin : (if tasks > r.nprocs then r.nprocs else tasks)
            = min tasks r.nprocs := by
          rcases Nat.lt_or_ge r.nprocs tasks with hlt | hle
          · rw [if_pos hlt, Nat.min_eq_right (Nat.le_of_lt hlt)]
          · rw [if_neg (by omega), Nat.min_eq_left hle]
        rw [hmin] at h
        by_cases hz : min tasks r.nprocs = 0
        · rw [if_pos hz] at h; exact absurd h (by simp)
        · rw [if_neg hz] at h
          have hr' : r' = { r with tasks_per_node := some (min tasks r.nprocs),
                                   nodes := some (ceilDiv r.nprocs
                                     (min tasks r.nprocs)) } := by
            cases h; rfl
          refine ⟨tasks, by simp [layoutTasks, hn, hfind],
            by rw [hr'], by rw [hr'], by rw [hr'], by rw [hr'], ?_⟩
          intro heq
          have hpos : 1 ≤ min tasks r.nprocs := Nat.one_le_iff_ne_zero.mpr hz
          have hone : ceilDiv r.nprocs (min tasks r.nprocs) = 1 := by
            rw [← heq] at hpos ⊢
            unfold ceilDiv
            exact Nat.div_eq_of_lt_le (by omega) (by omega)
          rw [hr']
          simp [hone]

/-- Every run produced by a successful `mapE (setRunPpn L)` comes from a
source run by one successful `setRunPpn` step. -/
theorem mapE_setRunPpn_mem (L : Layout) (xs ys : List Run)
    (h : mapE (setRunPpn L) xs = .ok ys) :
    ∀ y ∈ ys, ∃ x ∈ xs, setRunPpn L x = .ok y := by
  induction xs generalizing ys with
  | nil =>
    simp only [mapE] at h
    cases h
    intro y hy; simp at hy
  | cons x xs ih =>
    simp only [mapE, Bind.bind, Except.bind] at h
    cases hx : setRunPpn L x with
    | error e => rw [hx] at h; exact absurd h (by simp)
    | ok y0 =>
      rw [hx] at h
      cases hxs : mapE (setRunPpn L) xs with
      | error e => rw [hxs] at h; exact absurd h (by simp)
      | ok ys0 =>
        rw [hxs] at h
        cases h
        intro y hy
        rcases List.mem_cons.mp hy with rfl | hmem
        · exact ⟨x, by simp, hx⟩
        · obtain ⟨x', hx', hfx'⟩ := ih ys0 hxs y hmem
          exact ⟨x', by simp [hx'], hfx'⟩

/-- C5: after a successful `set_ppn(ppn)`, the pipeline's `total_nodes` is
the sum of its runs' node counts, and every resulting run carries
`tasks_per_node = min(layout tasks, nprocs)` and
`nodes = ceil(nprocs / tasks_per_node)` — in particular one node exactly
when `nprocs = tasks_per_node`. -/
theorem set_ppn_nodes_spec (p p' : Pipeline) (ppn : Nat)
    (h : p.set_ppn ppn = .ok p') :
    p'.total_nodes = some ((p'.runs.map (fun r => r.nodes.getD 0)).sum)
  ∧ ∀ r' ∈ p'.runs, ∃ r ∈ p.runs, ∃ tasks : Nat,
      layoutTasks (p.effectiveLayout ppn) r.name = some tasks
    ∧ r'.name = r.name ∧ r'.nprocs = r.nprocs
    ∧ r'.tasks_per_node = some (min tasks r.nprocs)
    ∧ r'.nodes = some (ceilDiv r.nprocs (min tasks r.nprocs))
    ∧ (r.nprocs = min tasks r.nprocs → r'.nodes = some 1) := by
  unfold Pipeline.set_ppn at h
  simp only [Bind.bind, Except.bind] at h
  cases hm : mapE (setRunPpn (p.effectiveLayout ppn)) p.runs with
  | error e => rw [hm] at h; exact absurd h (by simp)
  | ok runs' =>
    rw [hm] at h
    cases h
    constructor
    · rfl
    · intro r' hr'
      obtain ⟨r, hr, hstep⟩ := mapE_setRunPpn_mem _ _ _ hm r' hr'
      obtain ⟨tasks, hts⟩ := setRunPpn_ok _ _ _ hstep
      exact ⟨r, hr, tasks, hts⟩

/-- Witness for `set_ppn_nodes_spec`: `freshPipeline` resolved with
`ppn = 2` yields `resolvedPipeline` — run `x` (4 procs) gets 2 tasks per
node on 2 nodes, run `y` (2 procs) gets 2 tasks per node on 1 node,
totalling 3 nodes. -/
theorem set_ppn_nodes_spec_witness :
    resolvedPipeline.total_nodes
      = some ((resolvedPipeline.runs.map (fun r => r.nodes.getD 0)).sum)
  ∧ ∀ r' ∈ resolvedPipeline.runs, ∃ r ∈ freshPipeline.runs, ∃ tasks : Nat,
      layoutTasks (freshPipeline.effectiveLayout 2) r.name = some tasks
    ∧ r'.name = r.name ∧ r'.nprocs = r.nprocs
    ∧ r'.tasks_per_node = some (min tasks r.nprocs)
    ∧ r'.nodes = some (ceilDiv r.nprocs (min tasks r.nprocs))
    ∧ (r.nprocs = min tasks r.nprocs → r'.nodes = some 1) :=
  set_ppn_nodes_spec freshPipeline resolvedPipeline 2 rfl

/-- A successful `set_ppn` only rewrites the runs and `total_nodes`; the
pipeline's identity and lifecycle flags are untouched. -/
theorem set_ppn_preserves (p : Pipeline) (ppn : Nat) (p' : Pipeline)
    (h : p.set_ppn ppn = .ok p') :
    p'.id = p.id ∧ p'._running = p._running
  ∧ p'._force_killed = p._force_killed
  ∧ p'._active_runs = p._active_runs := by
  unfold Pipeline.set_ppn at h
  simp only [Bind.bind, Except.bind] at h
  cases hm : mapE (setRunPpn (p.effectiveLayout ppn)) p.runs with
  | error e => rw [hm] at h; exact absurd h (by simp)
  | ok runs' =>
    rw [hm] at h
    cases h
    exact ⟨rfl, rfl, rfl, rfl⟩

/-- Full description of the no-fit branch of `add_pipeline`: the id is
recorded, a `{NOT_STARTED, NOFIT}` state is stored when a status store
exists, the pipeline is discarded, and nothing else changes. -/
theorem add_pipeline_nofit (c : ConsumerState) (p p' : Pipeline) (n : Nat)
    (hallow : c._allow_new_pipelines = true)
    (hdup : p.id ∉ c._pipeline_ids)
    (hrun : p._running = false)
    (hppn : p.set_ppn c.ppn = .ok p')
    (hn : p'.get_nodes_used = .ok n)
    (hbig : n > c.max_nodes) :
    add_pipeline c p =
      ({ c with _pipeline_ids := p.id :: c._pipeline_ids,
                statusStore := c.statusStore.map (fun store =>
                  set_state store { id := p.id, state := .NOT_STARTED,
                                    reason := some .NOFIT }) },
       .ok ()) := by
  have hpres := set_ppn_preserves p c.ppn p' hppn
  have hstate : p'.get_state = .ok { id := p.id, state := .NOT_STARTED } := by
    unfold Pipeline.get_state
    rw [hpres.2.1, hrun, hpres.1]
    simp
  unfold add_pipeline
  rw [hallow]
  rw [if_neg (by simp)]
  rw [if_neg hdup]
  rw [hppn]
  simp only []
  rw [hn]
  simp only []
  rw [if_pos hbig]
  cases hs : c.statusStore with
  | none => simp [hs, hstate]
  | some store => simp [hs, hstate, set_state]

/-- Any `add_pipeline` on a consumer that disallows new pipelines is
rejected with the stop/kill error and leaves the state untouched, so a
whole sequence of attempts after `stop()` all fail identically. -/
theorem addSeq_stopped (d : ConsumerState)
    (hd : d._allow_new_pipelines = false) (ps : List Pipeline) :
    addSeq d ps =
      (d, ps.map (fun _ =>
        .error "new pipelines are not allowed after stop or kill")) := by
  induction ps with
  | nil => rfl
  | cons p ps ih => simp [addSeq, add_pipeline, hd, ih]

/-- C2: `add_pipeline` raises when new pipelines are disallowed and on a
duplicate id, records `{NOT_STARTED, NOFIT}` and discards a pipeline over
the node budget, and in every rejection case leaves `free_nodes` and the
pending job list unchanged; after `stop()` every subsequent call is
rejected. -/
theorem add_pipeline_rejections (c : ConsumerState) (p : Pipeline) :
    (c._allow_new_pipelines = false →
      add_pipeline c p =
        (c, .error "new pipelines are not allowed after stop or kill"))
  ∧ (c._allow_new_pipelines = true → p.id ∈ c._pipeline_ids →
      add_pipeline c p = (c, .error ("duplicate pipeline id: " ++ p.id)))
  ∧ (∀ (p' : Pipeline) (n : Nat),
      c._allow_new_pipelines = true → p.id ∉ c._pipeline_ids →
      p._running = false → p.set_ppn c.ppn = .ok p' →
      p'.get_nodes_used = .ok n → n > c.max_nodes →
      (add_pipeline c p).2 = .ok ()
      ∧ (add_pipeline c p).1.statusStore =
          c.statusStore.map (fun store =>
            set_state store { id := p.id, state := .NOT_STARTED,
                              reason := some .NOFIT })
      ∧ (add_pipeline c p).1.free_nodes = c.free_nodes
      ∧ (add_pipeline c p).1.job_list = c.job_list)
  ∧ (∀ ps : List Pipeline,
      addSeq c.stop ps =
        (c.stop, ps.map (fun _ =>
          .error "new pipelines are not allowed after stop or kill"))) := by
  refine ⟨?_, ?_, ?_, ?_⟩
  · intro hd; simp [add_pipeline, hd]
  · intro hallow hdup; simp [add_pipeline, hallow, hdup]
  · intro p' n hallow hdup hrun hppn hn hbig
    rw [add_pipeline_nofit c p p' n hallow hdup hrun hppn hn hbig]
    refine ⟨rfl, rfl, rfl, rfl⟩
  · exact fun ps => addSeq_stopped c.stop (by simp [ConsumerState.stop]) ps

/-- Witness for `add_pipeline_rejections`: `bigPipeline` (3 nodes) offered
to `smallConsumer` (budget 1) is discarded with a `{NOT_STARTED, NOFIT}`
status record, leaving `free_nodes` and the job list unchanged. -/
theorem add_pipeline_rejections_witness :
    (add_pipeline smallConsumer bigPipeline).2 = .ok ()
  ∧ (add_pipeline smallConsumer bigPipeline).1.statusStore =
      smallConsumer.statusStore.map (fun store =>
        set_state store { id := bigPipeline.id, state := .NOT_STARTED,
                          reason := some .NOFIT })
  ∧ (add_pipeline smallConsumer bigPipeline).1.free_nodes
      = smallConsumer.free_nodes
  ∧ (add_pipeline smallConsumer bigPipeline).1.job_list
      = smallConsumer.job_list :=
  (add_pipeline_rejections smallConsumer bigPipeline).2.2.1 bigResolved 3
    rfl (by decide) rfl rfl rfl (by decide)

/-- C10: after a pipeline is rejected for NOFIT, its id remains recorded,
so a second `add_pipeline` with a pipeline of the same id raises the
duplicate-id error even though the first was never enqueued. -/
theorem nofit_reserves_duplicate_id (c : ConsumerState) (p p' q : Pipeline)
    (n : Nat)
    (hallow : c._allow_new_pipelines = true)
    (hdup : p.id ∉ c._pipeline_ids)
    (hrun : p._running = false)
    (hppn : p.set_ppn c.ppn = .ok p')
    (hn : p'.get_nodes_used = .ok n)
    (hbig : n > c.max_nodes)
    (hq : q.id = p.id) :
    (add_pipeline c p).2 = .ok ()
  ∧ add_pipeline (add_pipeline c p).1 q =
      ((add_pipeline c p).1, .error ("duplicate pipeline id: " ++ q.id)) := by
  rw [add_pipeline_nofit c p p' n hallow hdup hrun hppn hn hbig]
  refine ⟨rfl, ?_⟩
  simp [add_pipeline, hallow, hq]

/-- Witness for `nofit_reserves_duplicate_id`: after the NOFIT rejection
of `bigPipeline`, adding `bigPipelineTwin` (same id, would fit) raises the
duplicate-id error. -/
theorem nofit_reserves_duplicate_id_witness :
    (add_pipeline smallConsumer bigPipeline).2 = .ok ()
  ∧ add_pipeline (add_pipeline smallConsumer bigPipeline).1 bigPipelineTwin =
      ((add_pipeline smallConsumer bigPipeline).1,
        .error ("duplicate pipeline id: " ++ bigPipelineTwin.id)) :=
  nofit_reserves_duplicate_id smallConsumer bigPipeline bigResolved
    bigPipelineTwin 3 rfl (by decide) rfl rfl rfl (by decide) rfl

end Cheetah
